import Mathlib

/-
Shallow embedding of the cyclonedds-python builtin reader subsystem
(src/cyclonedds/builtin.py) and the typeof discovery presentation
(src/cyclonedds/tools/cli/typeof.py), with theorems settling the
specification claims about them.
-/

set_option autoImplicit false

namespace CycloneDDS

/-! ## Condition masks

Modelled from the spec: the classes ViewState, SampleState and InstanceState
live in cyclonedds/core.py, which is not part of the embedded sources. The
spec describes a Condition Mask as three bitsets (view state, sample state,
instance state) combined by bitwise union, with an Any value on each axis
that unites all flags of that axis. Each axis is embedded as a finite set of
flags; Any is the full set of the axis. -/

/-- Modelled from the spec: flags of the view-state axis of a Condition Mask
(cyclonedds.core.ViewState, absent from the embedded sources). -/
inductive ViewFlag where
  | New
  | NotNew
  deriving DecidableEq, Fintype

/-- Modelled from the spec: flags of the sample-state axis of a Condition Mask
(cyclonedds.core.SampleState, absent from the embedded sources). -/
inductive SampleFlag where
  | Read
  | NotRead
  deriving DecidableEq, Fintype

/-- Modelled from the spec: flags of the instance-state axis of a Condition
Mask (cyclonedds.core.InstanceState, absent from the embedded sources). -/
inductive InstanceFlag where
  | Alive
  | NotAliveDisposed
  | NotAliveNoWriters
  deriving DecidableEq, Fintype

/-- Modelled from the spec: a Condition Mask is one bitset per state axis. -/
structure ConditionMask where
  view_state : Finset ViewFlag
  sample_state : Finset SampleFlag
  instance_state : Finset InstanceFlag
  deriving DecidableEq

/-- Modelled from the spec: ViewState.Any, the union of all view flags. -/
def ViewStateAny : Finset ViewFlag := {ViewFlag.New, ViewFlag.NotNew}

/-- Modelled from the spec: SampleState.NotRead as a one-flag bitset. -/
def SampleStateNotRead : Finset SampleFlag := {SampleFlag.NotRead}

/-- Modelled from the spec: SampleState.Any, the union of all sample flags. -/
def SampleStateAny : Finset SampleFlag := {SampleFlag.Read, SampleFlag.NotRead}

/-- Modelled from the spec: InstanceState.Any, the union of all instance
flags. -/
def InstanceStateAny : Finset InstanceFlag :=
  {InstanceFlag.Alive, InstanceFlag.NotAliveDisposed, InstanceFlag.NotAliveNoWriters}

/-- Modelled from the spec: bitwise union of two Condition Masks, axis by
axis. -/
def ConditionMask.union (a b : ConditionMask) : ConditionMask :=
  ⟨a.view_state ∪ b.view_state,
   a.sample_state ∪ b.sample_state,
   a.instance_state ∪ b.instance_state⟩

/-- Modelled from the spec: the mask matching any view state, any sample
state and any instance state. -/
def anyAnyAnyMask : ConditionMask := ⟨ViewStateAny, SampleStateAny, InstanceStateAny⟩

/-- The default condition mask built in BuiltinDataReader.__init__ at
builtin.py line 85: ViewState.Any, SampleState.NotRead, InstanceState.Any. -/
def defaultReaderMask : ConditionMask := ⟨ViewStateAny, SampleStateNotRead, InstanceStateAny⟩

/-! ## Builtin topic descriptors (builtin.py lines 33 to 41 and 156 to 172) -/

/-- Record shapes imported from builtin_types in builtin.py line 23. -/
inductive DataType where
  | DcpsParticipant
  | DcpsTopic
  | DcpsEndpoint
  deriving DecidableEq

/-- BuiltinTopic from builtin.py lines 33 to 41: a pseudo reference number
plus the record shape of its samples. -/
structure BuiltinTopic where
  _ref : Nat
  data_type : DataType
  deriving DecidableEq

/-- The _pseudo_handle base from builtin.py line 156. -/
def _pseudo_handle : Nat := 0x7fff0000

/-- BuiltinTopicDcpsParticipant, builtin.py line 157. -/
def BuiltinTopicDcpsParticipant : BuiltinTopic :=
  ⟨_pseudo_handle + 1, DataType.DcpsParticipant⟩

/-- BuiltinTopicDcpsTopic, builtin.py line 160; note its data_type argument
in the source is DcpsEndpoint. -/
def BuiltinTopicDcpsTopic : BuiltinTopic :=
  ⟨_pseudo_handle + 2, DataType.DcpsEndpoint⟩

/-- BuiltinTopicDcpsPublication, builtin.py line 168. -/
def BuiltinTopicDcpsPublication : BuiltinTopic :=
  ⟨_pseudo_handle + 3, DataType.DcpsEndpoint⟩

/-- BuiltinTopicDcpsSubscription, builtin.py line 171. -/
def BuiltinTopicDcpsSubscription : BuiltinTopic :=
  ⟨_pseudo_handle + 4, DataType.DcpsEndpoint⟩

/-! ## Decode functions and record building blocks (builtin.py line 25) -/

/-- Names of the six decode primitives imported from cyclonedds._clayer in
builtin.py line 25. They are opaque external functions; the embedding tracks
which one a reader stores and invokes. -/
inductive DdspyFn where
  | ddspy_read_participant
  | ddspy_take_participant
  | ddspy_read_endpoint
  | ddspy_take_endpoint
  | ddspy_read_topic
  | ddspy_take_topic
  deriving DecidableEq

/-- Names of the three record builders imported from builtin_types in
builtin.py line 23. -/
inductive RecordCtor where
  | participant_ctor
  | topic_ctor
  | endpoint_ctor
  deriving DecidableEq

/-- The triple of fields set by BuiltinDataReader._make_constructors. -/
structure CtorTriple where
  _readfn : DdspyFn
  _takefn : DdspyFn
  _ctor : RecordCtor
  deriving DecidableEq

/-- BuiltinDataReader._make_constructors, builtin.py lines 91 to 104: a
three-way dispatch on the bound builtin topic; participant and topic are
matched explicitly and everything else falls to the endpoint triple. -/
def _make_constructors (topic : BuiltinTopic) : CtorTriple :=
  if topic = BuiltinTopicDcpsParticipant then
    ⟨DdspyFn.ddspy_read_participant, DdspyFn.ddspy_take_participant, RecordCtor.participant_ctor⟩
  else if topic = BuiltinTopicDcpsTopic then
    ⟨DdspyFn.ddspy_read_topic, DdspyFn.ddspy_take_topic, RecordCtor.topic_ctor⟩
  else
    ⟨DdspyFn.ddspy_read_endpoint, DdspyFn.ddspy_take_endpoint, RecordCtor.endpoint_ctor⟩

/-! ## Reader state and construction (builtin.py lines 50 to 104) -/

/-- ReadCondition as held by the reader: the entity reference the middleware
assigned to the condition, plus its mask. The ReadCondition class itself
lives in cyclonedds/core.py, outside the embedded sources; only its _ref
field is consulted by builtin.py (read and take pass condition._ref). -/
structure ReadCondition where
  _ref : Nat
  mask : ConditionMask
  deriving DecidableEq

/-- The state of a BuiltinDataReader after __init__: the entity reference,
the bound topic, the default read condition built at line 85, and the three
fields cached by _make_constructors. -/
structure BuiltinDataReader where
  _ref : Nat
  _topic : BuiltinTopic
  _next_condition : ReadCondition
  _readfn : DdspyFn
  _takefn : DdspyFn
  _ctor : RecordCtor
  deriving DecidableEq

/-- Observable steps of BuiltinDataReader.__init__, in source order:
qos_to_cqos (line 74, only when a qos is supplied), the reader creation call
(lines 75 to 84), construction of the default ReadCondition (line 85),
cqos_destroy (lines 86 to 87, only when a qos was supplied), and the
_make_constructors dispatch (line 88). -/
inductive InitEvent where
  | qos_to_cqos
  | create_reader
  | mk_read_condition
  | cqos_destroy
  | make_ctors
  deriving DecidableEq

/-- Decidable equality for Except values, used to evaluate outcomes of the
embedded fallible operations on concrete inputs. -/
instance instDecEqExcept {ε α : Type} [DecidableEq ε] [DecidableEq α] :
    DecidableEq (Except ε α)
  | Except.error e, Except.error f =>
      match decEq e f with
      | Decidable.isTrue h => Decidable.isTrue (congrArg Except.error h)
      | Decidable.isFalse h => Decidable.isFalse (fun hc => h (by injection hc))
  | Except.error _, Except.ok _ => Decidable.isFalse (fun hc => Except.noConfusion hc)
  | Except.ok _, Except.error _ => Decidable.isFalse (fun hc => Except.noConfusion hc)
  | Except.ok a, Except.ok b =>
      match decEq a b with
      | Decidable.isTrue h => Decidable.isTrue (congrArg Except.ok h)
      | Decidable.isFalse h => Decidable.isFalse (fun hc => h (by injection hc))

/-- Outcome of BuiltinDataReader.__init__ together with the trace of its
observable steps. -/
structure InitResult where
  outcome : Except Int BuiltinDataReader
  trace : List InitEvent
  deriving DecidableEq

/-- BuiltinDataReader.__init__, builtin.py lines 50 to 89. The outcome of
the external reader creation call (a middleware entity reference on success,
a negative status on failure, on which Entity.__init__ raises) is a
parameter createResult, as is the entity reference condRef the middleware
assigns to the ReadCondition of line 85. The Python body is straight-line
with no try/finally: an error raised by the creation call propagates at once,
skipping every later statement. -/
def BuiltinDataReader.init (qos : Option Nat) (createResult : Except Int Nat)
    (condRef : Nat) (builtin_topic : BuiltinTopic) : InitResult :=
  let cqosMade := if qos.isSome then [InitEvent.qos_to_cqos] else []
  match createResult with
  | Except.error code =>
      ⟨Except.error code, cqosMade ++ [InitEvent.create_reader]⟩
  | Except.ok readerRef =>
      let triple := _make_constructors builtin_topic
      ⟨Except.ok
        { _ref := readerRef
          _topic := builtin_topic
          _next_condition := ⟨condRef, defaultReaderMask⟩
          _readfn := triple._readfn
          _takefn := triple._takefn
          _ctor := triple._ctor },
       cqosMade ++ [InitEvent.create_reader, InitEvent.mk_read_condition]
         ++ (if qos.isSome then [InitEvent.cqos_destroy] else [])
         ++ [InitEvent.make_ctors]⟩

/-! ## read and take (builtin.py lines 106 to 153) -/

/-- Samples decoded into typed records; their content is irrelevant to the
claims, so they are opaque values. -/
abbrev Sample := Nat

/-- Return value of a decode primitive: by the middleware contract it is
either a list of decoded samples or an integer status code, which the Python
body detects with a type check on int. -/
inductive DdspyResult where
  | intRet (code : Int)
  | samples (xs : List Sample)
  deriving DecidableEq

/-- DDSException as raised in builtin.py lines 127 and 151: the status code
returned by the primitive and the message text. -/
structure DDSException where
  code : Int
  msg : String
  deriving DecidableEq

/-- One invocation of a decode primitive, with the arguments the Python body
passes at builtin.py lines 124 and 148: the function, the entity reference,
the maximum sample count N, and the record builder. -/
structure PrimCall where
  fn : DdspyFn
  ref : Nat
  n : Int
  ctor : RecordCtor
  deriving DecidableEq

/-- Behaviour of the middleware decode primitives: an arbitrary function of
the invocation arguments. -/
abbrev PrimBehaviour := PrimCall → DdspyResult

/-- The reference selection shared by read and take, builtin.py lines 123
and 147: condition._ref if a condition is supplied, else self._ref. -/
def BuiltinDataReader.selectRef (self : BuiltinDataReader)
    (condition : Option ReadCondition) : Nat :=
  match condition with
  | some c => c._ref
  | none => self._ref

/-- The invocation read performs at builtin.py line 124: the cached _readfn
applied to the selected reference, N and the cached record builder. -/
def BuiltinDataReader.readCall (self : BuiltinDataReader) (N : Int)
    (condition : Option ReadCondition) : PrimCall :=
  ⟨self._readfn, self.selectRef condition, N, self._ctor⟩

/-- The invocation take performs at builtin.py line 148: the cached _takefn
applied to the selected reference, N and the cached record builder. -/
def BuiltinDataReader.takeCall (self : BuiltinDataReader) (N : Int)
    (condition : Option ReadCondition) : PrimCall :=
  ⟨self._takefn, self.selectRef condition, N, self._ctor⟩

/-- BuiltinDataReader.read, builtin.py lines 106 to 129. The primitive
behaviour and repr(self) are parameters; the second component of the result
is the list of primitive invocations the call performed. -/
def BuiltinDataReader.read (self : BuiltinDataReader) (prim : PrimBehaviour)
    (N : Int) (condition : Option ReadCondition) (selfRepr : String) :
    Except DDSException (List Sample) × List PrimCall :=
  let call := self.readCall N condition
  (match prim call with
   | DdspyResult.intRet code =>
       Except.error ⟨code, "Occurred when calling read() in " ++ selfRepr⟩
   | DdspyResult.samples xs => Except.ok xs,
   [call])

/-- BuiltinDataReader.take, builtin.py lines 131 to 153. Identical in shape
to read but invoking the cached take primitive; the message of the raised
exception is the literal of source line 151, which names read(). -/
def BuiltinDataReader.take (self : BuiltinDataReader) (prim : PrimBehaviour)
    (N : Int) (condition : Option ReadCondition) (selfRepr : String) :
    Except DDSException (List Sample) × List PrimCall :=
  let call := self.takeCall N condition
  (match prim call with
   | DdspyResult.intRet code =>
       Except.error ⟨code, "Occurred when calling read() in " ++ selfRepr⟩
   | DdspyResult.samples xs => Except.ok xs,
   [call])

/-! ## The typeof command (tools/cli/typeof.py lines 33 to 60) -/

/-- One element of live.result as consumed in typeof.py line 54: a tuple of
type identifier, reconstructed source text, and the participants advertising
it. The aggregation that fills this list lives in the discovery package,
outside the embedded sources; presentation only consumes the final list. -/
structure TypeDiscoveryEntry where
  type_id : Nat
  code : String
  participants : List String
  deriving DecidableEq

/-- Console output produced by the typeof body. -/
inductive OutEvent where
  | blankLine
  | noTypesNotice
  | multipleDefsWarning
  | participantsLine (participants : List String)
  | codeBlock (code : String)
  deriving DecidableEq

/-- Observable steps of the typeof body in program order: starting the
scanner thread, running the progress viewer, joining the scanner thread,
reading live.result, and printing. -/
inductive TypeofEvent where
  | startScanner
  | renderProgress
  | joinScanner
  | readResult
  | output (e : OutEvent)
  deriving DecidableEq

/-- The console output of typeof.py lines 46 to 60 as a function of the
final live.result: an empty result prints the no-types notice; a result
with more than one entry first prints the multiple-definitions warning;
a nonempty result then prints, for each entry, its participants line, its
source text and a blank line. -/
def presentResult (result : List TypeDiscoveryEntry) : List OutEvent :=
  (if result.isEmpty then [OutEvent.noTypesNotice]
   else if 1 < result.length then [OutEvent.multipleDefsWarning]
   else [])
  ++ (if result.isEmpty then []
      else result.flatMap fun e =>
        [OutEvent.participantsLine e.participants, OutEvent.codeBlock e.code,
         OutEvent.blankLine])

/-- The presentation part of the typeof trace, typeof.py lines 46 to 60,
with one readResult event for each evaluation of live.result: the first if
condition, the elif length check when reached, the second if condition, and
the loop iterator when entered. -/
def presentTrace (result : List TypeDiscoveryEntry) : List TypeofEvent :=
  (if result.isEmpty then
     [TypeofEvent.readResult, TypeofEvent.output OutEvent.noTypesNotice]
   else if 1 < result.length then
     [TypeofEvent.readResult, TypeofEvent.readResult,
      TypeofEvent.output OutEvent.multipleDefsWarning]
   else [TypeofEvent.readResult, TypeofEvent.readResult])
  ++ (if result.isEmpty then [TypeofEvent.readResult]
      else TypeofEvent.readResult :: TypeofEvent.readResult ::
        result.flatMap fun e =>
          [TypeofEvent.output (OutEvent.participantsLine e.participants),
           TypeofEvent.output (OutEvent.codeBlock e.code),
           TypeofEvent.output OutEvent.blankLine])

/-- The whole typeof body, typeof.py lines 33 to 60, as an event trace:
thread.start() at line 39, the blank print at line 41, the progress viewer
at line 42, thread.join() at line 44, then the presentation of
live.result. -/
def typeofTrace (result : List TypeDiscoveryEntry) : List TypeofEvent :=
  [TypeofEvent.startScanner, TypeofEvent.output OutEvent.blankLine,
   TypeofEvent.renderProgress, TypeofEvent.joinScanner]
  ++ presentTrace result

/-! ## Concrete instances used to evaluate the embedding -/

/-- The reader produced by BuiltinDataReader.init with no qos, reader
reference 1, condition reference 2, bound to the participant topic. -/
def demoReader : BuiltinDataReader :=
  { _ref := 1
    _topic := BuiltinTopicDcpsParticipant
    _next_condition := ⟨2, defaultReaderMask⟩
    _readfn := DdspyFn.ddspy_read_participant
    _takefn := DdspyFn.ddspy_take_participant
    _ctor := RecordCtor.participant_ctor }

/-- A primitive behaviour that returns the same result on every call. -/
def constPrim (res : DdspyResult) : PrimBehaviour := fun _ => res

/-- A primitive behaviour whose result depends on the entity reference it is
invoked on: one cached sample behind reference 1, none elsewhere. -/
def refPrim : PrimBehaviour := fun call =>
  if call.ref = 1 then DdspyResult.samples [0] else DdspyResult.samples []

/-! ## Helper lemmas -/

/-- The first component of read is the branch on the primitive result. -/
theorem read_fst_eq (r : BuiltinDataReader) (prim : PrimBehaviour) (N : Int)
    (cond : Option ReadCondition) (rp : String) :
    (r.read prim N cond rp).1 =
      match prim (r.readCall N cond) with
      | DdspyResult.intRet code =>
          Except.error ⟨code, "Occurred when calling read() in " ++ rp⟩
      | DdspyResult.samples xs => Except.ok xs := rfl

/-- The first component of take is the branch on the primitive result. -/
theorem take_fst_eq (r : BuiltinDataReader) (prim : PrimBehaviour) (N : Int)
    (cond : Option ReadCondition) (rp : String) :
    (r.take prim N cond rp).1 =
      match prim (r.takeCall N cond) with
      | DdspyResult.intRet code =>
          Except.error ⟨code, "Occurred when calling read() in " ++ rp⟩
      | DdspyResult.samples xs => Except.ok xs := rfl

/-! ## Claim theorems -/

/-- C8: Condition Mask composition under bitwise union is associative and
idempotent, and the mask of any view, any sample and any instance state is
absorbing: uniting it with any mask gives it back. -/
theorem condition_mask_union_algebra :
    (∀ a b c : ConditionMask, (a.union b).union c = a.union (b.union c)) ∧
    (∀ a : ConditionMask, a.union a = a) ∧
    (∀ m : ConditionMask, anyAnyAnyMask.union m = anyAnyAnyMask) := by
  refine ⟨fun a b c => ?_, fun a => ?_, fun m => ?_⟩
  · simp [ConditionMask.union, Finset.union_assoc]
  · cases a
    simp [ConditionMask.union, Finset.union_self]
  · have hv : m.view_state ⊆ ViewStateAny := fun x _ => by
      cases x <;> simp [ViewStateAny]
    have hs : m.sample_state ⊆ SampleStateAny := fun x _ => by
      cases x <;> simp [SampleStateAny]
    have hi : m.instance_state ⊆ InstanceStateAny := fun x _ => by
      cases x <;> simp [InstanceStateAny]
    simp [ConditionMask.union, anyAnyAnyMask, Finset.union_eq_left.mpr hv,
      Finset.union_eq_left.mpr hs, Finset.union_eq_left.mpr hi]

/-- C9: the dispatch of _make_constructors is a catch-all on its endpoint
branch: every topic value other than the participant and topic singletons,
in particular the publication and subscription singletons, selects the
endpoint triple, and the dispatch is total. -/
theorem make_constructors_catch_all (t : BuiltinTopic)
    (h1 : t ≠ BuiltinTopicDcpsParticipant) (h2 : t ≠ BuiltinTopicDcpsTopic) :
    _make_constructors t =
      ⟨DdspyFn.ddspy_read_endpoint, DdspyFn.ddspy_take_endpoint,
       RecordCtor.endpoint_ctor⟩ ∧
    _make_constructors BuiltinTopicDcpsPublication =
      ⟨DdspyFn.ddspy_read_endpoint, DdspyFn.ddspy_take_endpoint,
       RecordCtor.endpoint_ctor⟩ ∧
    _make_constructors BuiltinTopicDcpsSubscription =
      ⟨DdspyFn.ddspy_read_endpoint, DdspyFn.ddspy_take_endpoint,
       RecordCtor.endpoint_ctor⟩ := by
  refine ⟨?_, by decide, by decide⟩
  unfold _make_constructors
  rw [if_neg h1, if_neg h2]

/-- Witness for C9, applied to a descriptor value that is none of the four
singletons. -/
theorem make_constructors_catch_all_witness :
    _make_constructors ⟨0, DataType.DcpsParticipant⟩ =
      ⟨DdspyFn.ddspy_read_endpoint, DdspyFn.ddspy_take_endpoint,
       RecordCtor.endpoint_ctor⟩ :=
  (make_constructors_catch_all ⟨0, DataType.DcpsParticipant⟩
    (by decide) (by decide)).1

/-- C10: the four singleton descriptors carry the pairwise distinct pseudo
handles 0x7fff0001 through 0x7fff0004; the topic singleton carries the
endpoint record shape DcpsEndpoint, not a topic specific record, and yet a
reader constructed against it uses the topic decode triple. -/
theorem builtin_singleton_handles_and_topic_shape :
    BuiltinTopicDcpsParticipant._ref = 0x7fff0001 ∧
    BuiltinTopicDcpsTopic._ref = 0x7fff0002 ∧
    BuiltinTopicDcpsPublication._ref = 0x7fff0003 ∧
    BuiltinTopicDcpsSubscription._ref = 0x7fff0004 ∧
    BuiltinTopicDcpsParticipant._ref ≠ BuiltinTopicDcpsTopic._ref ∧
    BuiltinTopicDcpsParticipant._ref ≠ BuiltinTopicDcpsPublication._ref ∧
    BuiltinTopicDcpsParticipant._ref ≠ BuiltinTopicDcpsSubscription._ref ∧
    BuiltinTopicDcpsTopic._ref ≠ BuiltinTopicDcpsPublication._ref ∧
    BuiltinTopicDcpsTopic._ref ≠ BuiltinTopicDcpsSubscription._ref ∧
    BuiltinTopicDcpsPublication._ref ≠ BuiltinTopicDcpsSubscription._ref ∧
    BuiltinTopicDcpsTopic.data_type = DataType.DcpsEndpoint ∧
    DataType.DcpsEndpoint ≠ DataType.DcpsTopic ∧
    _make_constructors BuiltinTopicDcpsTopic =
      ⟨DdspyFn.ddspy_read_topic, DdspyFn.ddspy_take_topic,
       RecordCtor.topic_ctor⟩ := by
  decide

/-- C4 evaluation: when the primitive behind take reports status -1, the
exception raised by take carries a message that names read(), copied from
the read body at builtin.py line 151, so the take error does not describe a
take operation; read itself raises with the same read() message. -/
theorem take_error_message_names_read :
    (demoReader.take (constPrim (DdspyResult.intRet (-1))) 1 none "the reader").1
      = Except.error ⟨-1, "Occurred when calling read() in the reader"⟩ ∧
    (demoReader.read (constPrim (DdspyResult.intRet (-1))) 1 none "the reader").1
      = Except.error ⟨-1, "Occurred when calling read() in the reader"⟩ := by
  exact ⟨rfl, rfl⟩

/-- C1: constructing a BuiltinDataReader resolves the decode triple exactly
once, with the participant singleton yielding the participant triple, the
topic singleton the topic triple and the publication or subscription
singleton the endpoint triple; every read and take call performs exactly one
primitive invocation through the cached fields, with no further dispatch. -/
theorem builtin_reader_resolves_triple_once
    (qos : Option Nat) (createRef condRef : Nat) (t : BuiltinTopic)
    (r : BuiltinDataReader)
    (h : (BuiltinDataReader.init qos (Except.ok createRef) condRef t).outcome
           = Except.ok r) :
    (r._readfn = (_make_constructors t)._readfn ∧
     r._takefn = (_make_constructors t)._takefn ∧
     r._ctor = (_make_constructors t)._ctor) ∧
    ((BuiltinDataReader.init qos (Except.ok createRef) condRef t).trace.count
        InitEvent.make_ctors = 1) ∧
    (t = BuiltinTopicDcpsParticipant →
       _make_constructors t =
         ⟨DdspyFn.ddspy_read_participant, DdspyFn.ddspy_take_participant,
          RecordCtor.participant_ctor⟩) ∧
    (t = BuiltinTopicDcpsTopic →
       _make_constructors t =
         ⟨DdspyFn.ddspy_read_topic, DdspyFn.ddspy_take_topic,
          RecordCtor.topic_ctor⟩) ∧
    (t = BuiltinTopicDcpsPublication ∨ t = BuiltinTopicDcpsSubscription →
       _make_constructors t =
         ⟨DdspyFn.ddspy_read_endpoint, DdspyFn.ddspy_take_endpoint,
          RecordCtor.endpoint_ctor⟩) ∧
    (∀ (prim : PrimBehaviour) (N : Int) (cond : Option ReadCondition)
       (rp : String),
       (r.read prim N cond rp).2 = [r.readCall N cond] ∧
       (r.take prim N cond rp).2 = [r.takeCall N cond] ∧
       (r.readCall N cond).fn = r._readfn ∧
       (r.takeCall N cond).fn = r._takefn ∧
       (r.readCall N cond).ctor = r._ctor ∧
       (r.takeCall N cond).ctor = r._ctor) := by
  have hr := Except.ok.inj h
  subst hr
  refine ⟨⟨rfl, rfl, rfl⟩, ?_, fun ht => ?_, fun ht => ?_, fun ht => ?_,
    fun prim N cond rp => ⟨rfl, rfl, rfl, rfl, rfl, rfl⟩⟩
  · rcases qos with _ | q <;> rfl
  · subst ht; rfl
  · subst ht; rfl
  · rcases ht with ht | ht <;> subst ht <;> rfl

/-- Witness for C1 at concrete construction inputs: no qos, reader reference
1, condition reference 2, bound to the participant singleton. -/
theorem builtin_reader_resolves_triple_once_witness :
    demoReader._readfn = (_make_constructors BuiltinTopicDcpsParticipant)._readfn ∧
    demoReader._takefn = (_make_constructors BuiltinTopicDcpsParticipant)._takefn ∧
    demoReader._ctor = (_make_constructors BuiltinTopicDcpsParticipant)._ctor :=
  (builtin_reader_resolves_triple_once none 1 2 BuiltinTopicDcpsParticipant
    demoReader rfl).1

/-- Counterexample to C2: on the reader built against the participant
singleton with reader reference 1 and condition reference 2, under a
middleware behaviour that caches one sample behind the reader reference and
none behind the condition reference, the call with no condition returns a
different result than the call with the default NotRead condition, because
the omitted-condition call passes self._ref rather than the reference of
the default condition. -/
theorem omitted_condition_differs_from_default_condition :
    (BuiltinDataReader.init none (Except.ok 1) 2
        BuiltinTopicDcpsParticipant).outcome = Except.ok demoReader ∧
    (demoReader.read refPrim 1 none "r").1 = Except.ok [0] ∧
    (demoReader.read refPrim 1 (some demoReader._next_condition) "r").1
      = Except.ok [] ∧
    (demoReader.read refPrim 1 none "r").1
      ≠ (demoReader.read refPrim 1 (some demoReader._next_condition) "r").1 := by
  refine ⟨rfl, rfl, rfl, ?_⟩
  decide

/-- C2 as amended: a read or take call with no condition passes the entity
reference of the reader itself, self._ref, to the decode primitive, while a
call with a condition passes the reference of that condition; the default
NotRead condition is built at construction with the mask of line 85 but is
not consulted by read or take. -/
theorem omitted_condition_uses_reader_ref
    (r : BuiltinDataReader) (prim : PrimBehaviour) (N : Int) (rp : String) :
    r.readCall N none = ⟨r._readfn, r._ref, N, r._ctor⟩ ∧
    r.takeCall N none = ⟨r._takefn, r._ref, N, r._ctor⟩ ∧
    (∀ c : ReadCondition,
       r.readCall N (some c) = ⟨r._readfn, c._ref, N, r._ctor⟩ ∧
       r.takeCall N (some c) = ⟨r._takefn, c._ref, N, r._ctor⟩) ∧
    (r.read prim N none rp).2 = [⟨r._readfn, r._ref, N, r._ctor⟩] ∧
    (r.take prim N none rp).2 = [⟨r._takefn, r._ref, N, r._ctor⟩] ∧
    (∀ (qos : Option Nat) (createRef condRef : Nat) (t : BuiltinTopic),
       ∃ rr : BuiltinDataReader,
         (BuiltinDataReader.init qos (Except.ok createRef) condRef t).outcome
           = Except.ok rr ∧
         rr._ref = createRef ∧
         rr._next_condition = ⟨condRef, defaultReaderMask⟩) :=
  ⟨rfl, rfl, fun _ => ⟨rfl, rfl⟩, rfl, rfl,
   fun _ _ _ _ => ⟨_, rfl, rfl, rfl⟩⟩

/-- C3: a read or take call errors exactly when the decode primitive returns
an integer status instead of a sample list; the raised exception carries
that status code, a returned sample list is passed back unchanged, and each
call invokes the primitive exactly once, so a failed call is never retried
automatically. -/
theorem read_take_error_contract
    (r : BuiltinDataReader) (prim : PrimBehaviour) (N : Int)
    (cond : Option ReadCondition) (rp : String) :
    ((∃ e, (r.read prim N cond rp).1 = Except.error e) ↔
       ∃ code, prim (r.readCall N cond) = DdspyResult.intRet code) ∧
    (∀ code, prim (r.readCall N cond) = DdspyResult.intRet code →
       (r.read prim N cond rp).1 =
         Except.error ⟨code, "Occurred when calling read() in " ++ rp⟩) ∧
    (∀ xs, prim (r.readCall N cond) = DdspyResult.samples xs →
       (r.read prim N cond rp).1 = Except.ok xs) ∧
    ((r.read prim N cond rp).2 = [r.readCall N cond]) ∧
    ((∃ e, (r.take prim N cond rp).1 = Except.error e) ↔
       ∃ code, prim (r.takeCall N cond) = DdspyResult.intRet code) ∧
    (∀ code, prim (r.takeCall N cond) = DdspyResult.intRet code →
       (r.take prim N cond rp).1 =
         Except.error ⟨code, "Occurred when calling read() in " ++ rp⟩) ∧
    (∀ xs, prim (r.takeCall N cond) = DdspyResult.samples xs →
       (r.take prim N cond rp).1 = Except.ok xs) ∧
    ((r.take prim N cond rp).2 = [r.takeCall N cond]) := by
  refine ⟨⟨?_, ?_⟩, fun code hp => ?_, fun xs hp => ?_, rfl,
    ⟨?_, ?_⟩, fun code hp => ?_, fun xs hp => ?_, rfl⟩
  · rintro ⟨e, he⟩
    rw [read_fst_eq] at he
    rcases hp : prim (r.readCall N cond) with code | xs
    · exact ⟨code, rfl⟩
    · rw [hp] at he
      exact Except.noConfusion he
  · rintro ⟨code, hp⟩
    exact ⟨_, by rw [read_fst_eq, hp]⟩
  · rw [read_fst_eq, hp]
  · rw [read_fst_eq, hp]
  · rintro ⟨e, he⟩
    rw [take_fst_eq] at he
    rcases hp : prim (r.takeCall N cond) with code | xs
    · exact ⟨code, rfl⟩
    · rw [hp] at he
      exact Except.noConfusion he
  · rintro ⟨code, hp⟩
    exact ⟨_, by rw [take_fst_eq, hp]⟩
  · rw [take_fst_eq, hp]
  · rw [take_fst_eq, hp]

/-- Witness for C3 on concrete inputs: a primitive that reports status -9
makes read error with code -9, and a primitive that returns the sample list
with the single sample 3 makes read return it. -/
theorem read_take_error_contract_witness :
    (demoReader.read (constPrim (DdspyResult.intRet (-9))) 1 none "X").1 =
      Except.error ⟨-9, "Occurred when calling read() in " ++ "X"⟩ ∧
    (demoReader.read (constPrim (DdspyResult.samples [3])) 1 none "X").1 =
      Except.ok [3] :=
  ⟨(read_take_error_contract demoReader (constPrim (DdspyResult.intRet (-9)))
      1 none "X").2.1 (-9) rfl,
   (read_take_error_contract demoReader (constPrim (DdspyResult.samples [3]))
      1 none "X").2.2.1 [3] rfl⟩

/-- Counterexample to C5: with a qos supplied and the reader creation call
failing with status -12, the constructor converts the qos but exits on the
error path without ever reaching the cqos destroy call, so the converted
qos structure is not released on that exit path. -/
theorem cqos_not_destroyed_on_error_cx :
    InitEvent.qos_to_cqos ∈ (BuiltinDataReader.init (some 7)
        (Except.error (-12)) 9 BuiltinTopicDcpsParticipant).trace ∧
    (BuiltinDataReader.init (some 7) (Except.error (-12)) 9
        BuiltinTopicDcpsParticipant).outcome = Except.error (-12) ∧
    InitEvent.cqos_destroy ∉ (BuiltinDataReader.init (some 7)
        (Except.error (-12)) 9 BuiltinTopicDcpsParticipant).trace := by
  decide

/-- C5 as amended: with a supplied Qos the converted cqos is destroyed on
the successful construction path, after the reader and the default condition
are created; when reader creation fails the constructor propagates the error
without destroying the cqos; with no Qos supplied nothing is converted and
nothing is destroyed. -/
theorem cqos_destroy_paths (q createRef condRef : Nat) (t : BuiltinTopic) :
    InitEvent.cqos_destroy ∈ (BuiltinDataReader.init (some q)
        (Except.ok createRef) condRef t).trace ∧
    (∀ code : Int, InitEvent.cqos_destroy ∉ (BuiltinDataReader.init (some q)
        (Except.error code) condRef t).trace) ∧
    (∀ res : Except Int Nat,
       InitEvent.qos_to_cqos ∉ (BuiltinDataReader.init none res condRef t).trace ∧
       InitEvent.cqos_destroy ∉ (BuiltinDataReader.init none res condRef t).trace) := by
  refine ⟨?_, fun code => ?_, fun res => ?_⟩
  · simp [BuiltinDataReader.init]
  · simp [BuiltinDataReader.init]
  · rcases res with code | ref <;> simp [BuiltinDataReader.init]

/-- C6: the presentation of the final result set branches exactly as the
claim states: an empty result prints the no-types notice and is never
silent; a single entry prints its participants and source with no warning
and no notice; more than one entry prints the multiple-definitions warning
first and then every entry with its own participant list. -/
theorem typeof_presentation_branches (result : List TypeDiscoveryEntry) :
    (result = [] →
       presentResult result = [OutEvent.noTypesNotice] ∧
       presentResult result ≠ []) ∧
    (∀ e : TypeDiscoveryEntry, result = [e] →
       presentResult result =
         [OutEvent.participantsLine e.participants, OutEvent.codeBlock e.code,
          OutEvent.blankLine] ∧
       OutEvent.multipleDefsWarning ∉ presentResult result ∧
       OutEvent.noTypesNotice ∉ presentResult result) ∧
    (1 < result.length →
       presentResult result = OutEvent.multipleDefsWarning ::
         result.flatMap (fun e =>
           [OutEvent.participantsLine e.participants, OutEvent.codeBlock e.code,
            OutEvent.blankLine]) ∧
       OutEvent.noTypesNotice ∉ presentResult result) := by
  refine ⟨fun h => ?_, fun e he => ?_, fun h => ?_⟩
  · subst h
    simp [presentResult]
  · subst he
    simp [presentResult]
  · rcases result with _ | ⟨a, _ | ⟨b, l⟩⟩
    · simp at h
    · simp at h
    · constructor
      · simp [presentResult]
      · simp [presentResult]

/-- Witness for C6 on the one-entry result with source s advertised by the
single participant p. -/
theorem typeof_presentation_branches_witness :
    presentResult [⟨0, "s", ["p"]⟩] =
      [OutEvent.participantsLine ["p"], OutEvent.codeBlock "s",
       OutEvent.blankLine] ∧
    OutEvent.multipleDefsWarning ∉ presentResult [⟨0, "s", ["p"]⟩] ∧
    OutEvent.noTypesNotice ∉ presentResult [⟨0, "s", ["p"]⟩] :=
  (typeof_presentation_branches [⟨0, "s", ["p"]⟩]).2.1 ⟨0, "s", ["p"]⟩ rfl

/-- C7: in the typeof trace the scanner thread is joined before the result
is ever read: every prefix of the trace that contains a read of live.result
already contains the join of the scanner thread. -/
theorem typeof_join_precedes_result_reads
    (result : List TypeDiscoveryEntry) (n : Nat)
    (h : TypeofEvent.readResult ∈ (typeofTrace result).take n) :
    TypeofEvent.joinScanner ∈ (typeofTrace result).take n := by
  have he : typeofTrace result =
      TypeofEvent.startScanner :: TypeofEvent.output OutEvent.blankLine ::
      TypeofEvent.renderProgress :: TypeofEvent.joinScanner ::
      presentTrace result := rfl
  rw [he] at h ⊢
  rcases n with _ | (_ | (_ | (_ | m)))
  · simp at h
  · simp [List.take_succ_cons] at h
  · simp [List.take_succ_cons] at h
  · simp [List.take_succ_cons] at h
  · simp [List.take_succ_cons]

/-- Witness for C7: on the empty result, the five-step prefix of the trace
contains a read of live.result, and it indeed contains the join. -/
theorem typeof_join_precedes_result_reads_witness :
    TypeofEvent.readResult ∈ (typeofTrace []).take 5 ∧
    TypeofEvent.joinScanner ∈ (typeofTrace []).take 5 :=
  ⟨by decide, typeof_join_precedes_result_reads [] 5 (by decide)⟩

end CycloneDDS
